import Mathlib

/-!
Shallow embedding of `src/simulator/pivot_device_sim.py` (class `PivotSim`).

Modelling conventions:
* JSON values (what `json.loads` can return) are the inductive `Json`;
  Python truthiness is `Json.truthy`.
* Python's dynamic typing is modelled with `Except Unit`: calling `.get` on a
  non-dict, or `.upper()/.lower()/.strip()` on a non-string, is `.error ()`
  (an `AttributeError` propagating out of the paho callback).
* Randomness (`random.random()`, `random.uniform`) is passed in explicitly:
  `r` is the drop draw (uniform on `[0,1)`), `j` the jitter draw
  (uniform on `[0, max 0 random_lag]`).
* Side effects on the broker client and the clock are collected in an `Act`
  trace: `.pub`, `.sub`, `.willSet`, `.sleep`, plus lifecycle markers.
* `json.loads` itself is external library code; the embedding is parameterised
  over `loads : String → Option Json` (`none` = raised `JSONDecodeError`),
  and theorems assume only standard-JSON facts such as
  `loads "\x7b\x7d" = some (Json.obj [])`.
* `bytes.decode("utf-8", errors="replace")` is total, so inbound payloads are
  modelled directly as decoded text (`String`).
* `str.upper/lower/strip` are modelled by the structurally recursive
  `asciiUpper/asciiLower/pyTrim`, which agree with Python on ASCII data (all
  constants the program compares are ASCII).
-/

/-- A JSON value, as produced by Python's `json.loads`.  Numbers are modelled
as integers (no claim depends on float behaviour); objects are association
lists (keys unique in parser output). -/
inductive Json where
  | null : Json
  | bool (b : Bool) : Json
  | num (n : Int) : Json
  | str (s : String) : Json
  | arr (l : List Json) : Json
  | obj (l : List (String × Json)) : Json
  deriving Repr

/-- Python truthiness of a JSON value (`None`, `False`, `0`, `""`, `[]`, `{}`
are falsy). -/
def Json.truthy : Json → Bool
  | .null => false
  | .bool b => b
  | .num n => n != 0
  | .str s => s != ""
  | .arr l => !l.isEmpty
  | .obj l => !l.isEmpty

/-- Is this JSON value a string? -/
def Json.isStr : Json → Bool
  | .str _ => true
  | _ => false

/-- Python's `a or b` on JSON values: `a` if truthy, else `b`. -/
def pyOr (a b : Json) : Json := if a.truthy then a else b

/-- Value of `d[k]` looked up in a JSON object's field list; `Json.null` (Python `None`)
when absent.  Models `dict.get(k)` once we know `d` is a dict. -/
def jfield (l : List (String × Json)) (k : String) : Json :=
  (List.lookup k l).getD Json.null

/-- Python `d.get(k)`: `AttributeError` unless `d` is a dict, else the value or
`None`. -/
def pyGet : Json → String → Except Unit Json
  | .obj l, k => .ok (jfield l k)
  | _, _ => .error ()

/-- Python `d.get(k, dflt)`: `AttributeError` unless `d` is a dict, else the
value or the default. -/
def pyGetD : Json → String → Json → Except Unit Json
  | .obj l, k, dflt => .ok ((List.lookup k l).getD dflt)
  | _, _, _ => .error ()

/-- ASCII lower-casing of one character (Python's `str.lower` restricted to
ASCII; every constant the program compares is ASCII). -/
def asciiLowerChar (c : Char) : Char :=
  if 'A' ≤ c && c ≤ 'Z' then Char.ofNat (c.toNat + 32) else c

/-- ASCII upper-casing of one character (Python's `str.upper` restricted to
ASCII). -/
def asciiUpperChar (c : Char) : Char :=
  if 'a' ≤ c && c ≤ 'z' then Char.ofNat (c.toNat - 32) else c

/-- Python `s.lower()` on ASCII data. -/
def asciiLower (s : String) : String := ⟨s.data.map asciiLowerChar⟩

/-- Python `s.upper()` on ASCII data. -/
def asciiUpper (s : String) : String := ⟨s.data.map asciiUpperChar⟩

/-- Python's default whitespace set for `str.strip` (ASCII part). -/
def pyWsChar (c : Char) : Bool :=
  c == ' ' || c == '\t' || c == '\n' || c == '\x0b' || c == '\x0c' || c == '\r'

/-- Python `s.strip()`: remove leading and trailing whitespace. -/
def pyTrim (s : String) : String :=
  ⟨((s.data.dropWhile pyWsChar).reverse.dropWhile pyWsChar).reverse⟩

/-- Python `v.lower()`: only strings have the method. -/
def pyLower : Json → Except Unit String
  | .str s => .ok (asciiLower s)
  | _ => .error ()

/-- Python `v.upper()`: only strings have the method. -/
def pyUpper : Json → Except Unit String
  | .str s => .ok (asciiUpper s)
  | _ => .error ()

/-- Python `v.strip()`: only strings have the method. -/
def pyStrip : Json → Except Unit String
  | .str s => .ok (pyTrim s)
  | _ => .error ()

/-- Python `==` against a string literal (structural equality; a non-string is
never `==` a string). -/
def jsonEqStr (v : Json) (s : String) : Bool :=
  match v with
  | .str t => t == s
  | _ => false

/-- The configured simulator arguments used by the core (from `parse_args` /
`PivotSim.__init__`): `--latency`, `--random-lag`, `--drop-rate`,
`--motor-fail`, `--farm-id`. -/
structure SimArgs where
  latency : ℚ
  random_lag : ℚ
  drop_rate : ℚ
  motor_fail : Bool
  farm : String

/-- One observable effect on the broker client / clock. -/
inductive Act where
  | pub (topic : String) (payload : Json) (qos : Nat) (retain : Bool) : Act
  | sub (topic : String) (qos : Nat) : Act
  | willSet (topic : String) (payload : Json) (qos : Nat) (retain : Bool) : Act
  | sleep (d : ℚ) : Act
  | connect : Act
  | loopStart : Act
  | loopStop : Act
  | disconnect : Act

-- Topic names derived from the farm id (`PivotSim.__init__`, lines 55-61).

def t_status (f : String) : String := "farm/" ++ f ++ "/status"
def t_dev_status (f : String) : String := "farm/" ++ f ++ "/device/status"
def t_control (f : String) : String := "farm/" ++ f ++ "/control"
def t_device (f : String) : String := "farm/" ++ f ++ "/device"
def t_motor_ctrl (f : String) : String := "farm/" ++ f ++ "/motor/+/control"
def t_ack (f : String) : String := "farm/" ++ f ++ "/ack"
def t_err (f : String) : String := "farm/" ++ f ++ "/err"

/-- The motor-control regex `^farm/<F>/motor/([^/]+)/control$` (line 53):
matches exactly the topics `farm/<F>/motor/<M>/control` with `<M>` nonempty
and slash-free, returning `<M>`.  Stated on the character lists underlying
the strings (the regex is a character-level matcher). -/
def reMotorMatch (f topic : String) : Option String :=
  let pre := ("farm/" ++ f ++ "/motor/").data
  let suf := ("/control" : String).data
  let t := topic.data
  if pre.isPrefixOf t && suf.isSuffixOf t
      && decide (pre.length + suf.length < t.length) then
    let m := (t.drop pre.length).take (t.length - pre.length - suf.length)
    if m.contains '/' then none else some ⟨m⟩
  else none

/-- Method `_maybe_drop` (lines 148-149): `random.random() < max(0, min(1, drop_rate))`
with the draw `r` passed in. -/
def maybe_drop (args : SimArgs) (r : ℚ) : Bool :=
  decide (r < max 0 (min 1 args.drop_rate))

/-- The duration slept by `_sleep_latency` (lines 143-146):
`max(0, latency) + jitter`, with the jitter draw `j` passed in. -/
def delayOf (args : SimArgs) (j : ℚ) : ℚ := max 0 args.latency + j

/-- Handler `handle_pivot_cmd` (lines 152-159).  Order as in the source: read `corr`,
drop check (no sleep, no publish), sleep, build the note from
`d.get('run','').lower()`, publish one Ack to the global ack topic. -/
def handle_pivot_cmd (args : SimArgs) (r j : ℚ) (d : Json) :
    Except Unit (List Act) :=
  match pyGet d "corr" with
  | .error e => .error e
  | .ok corrv =>
    let corr := pyOr corrv (Json.str "")
    if maybe_drop args r then .ok []
    else
      match pyGetD d "run" (Json.str "") with
      | .error e => .error e
      | .ok runv =>
        match pyLower runv with
        | .error e => .error e
        | .ok runs =>
          .ok [Act.sleep (delayOf args j),
               Act.pub (t_ack args.farm)
                 (Json.obj [("corr", corr), ("ok", Json.bool true),
                            ("note", Json.str ("pivot " ++ runs ++ " accepted"))])
                 0 false]

/-- Handler `handle_device_cmd` (lines 161-178).  `corr`, `action` (uppercased) and
`serial` (stripped) are computed before the drop check; then drop check,
sleep, and either an Err (empty action or stripped-empty serial) or an Ack. -/
def handle_device_cmd (args : SimArgs) (r j : ℚ) (d : Json) :
    Except Unit (List Act) :=
  match pyGet d "corr" with
  | .error e => .error e
  | .ok corrv =>
    let corr := pyOr corrv (Json.str "")
    match pyGet d "action" with
    | .error e => .error e
    | .ok actionv =>
      match pyUpper (pyOr actionv (Json.str "")) with
      | .error e => .error e
      | .ok action =>
        match pyGet d "serial" with
        | .error e => .error e
        | .ok serialv =>
          match pyStrip (pyOr serialv (Json.str "")) with
          | .error e => .error e
          | .ok serial =>
            if maybe_drop args r then .ok []
            else if action == "" || serial == "" then
              .ok [Act.sleep (delayOf args j),
                   Act.pub (t_err args.farm)
                     (Json.obj [("corr", corr), ("ok", Json.bool false),
                                ("reason", Json.str "missing action/serial")])
                     0 false]
            else
              .ok [Act.sleep (delayOf args j),
                   Act.pub (t_ack args.farm)
                     (Json.obj [("corr", corr), ("ok", Json.bool true),
                                ("note", Json.str (action ++ " ok"))])
                     0 false]

/-- Handler `handle_motor_cmd` (lines 180-198).  `corr` and the uppercased `command`
are computed before the drop check; the per-motor ack/err topics are built
from the `motor_id` extracted from the inbound topic; then drop check, sleep,
and Err `"sim motor fault"` when `motor_fail` and the uppercased command is
`"START_MOTOR"`, else Ack `"sim motor ok"`. -/
def handle_motor_cmd (args : SimArgs) (motor_id : String) (r j : ℚ) (d : Json) :
    Except Unit (List Act) :=
  match pyGet d "corr" with
  | .error e => .error e
  | .ok corrv =>
    let corr := pyOr corrv (Json.str "")
    match pyGet d "command" with
    | .error e => .error e
    | .ok cmdv =>
      match pyUpper (pyOr cmdv (Json.str "")) with
      | .error e => .error e
      | .ok cmd =>
        let tAckM := "farm/" ++ args.farm ++ "/motor/" ++ motor_id ++ "/ack"
        let tErrM := "farm/" ++ args.farm ++ "/motor/" ++ motor_id ++ "/err"
        if maybe_drop args r then .ok []
        else if args.motor_fail && cmd == "START_MOTOR" then
          .ok [Act.sleep (delayOf args j),
               Act.pub tErrM
                 (Json.obj [("corr", corr), ("ok", Json.bool false),
                            ("reason", Json.str "sim motor fault")])
                 0 false]
        else
          .ok [Act.sleep (delayOf args j),
               Act.pub tAckM
                 (Json.obj [("corr", corr), ("ok", Json.bool true),
                            ("note", Json.str "sim motor ok")])
                 0 false]

/-- Python `text or "\x7b\x7d"` (line 126): the empty string is falsy. -/
def pyTextOr (text : String) : String := if text == "" then "\x7b\x7d" else text

/-- Callback `_on_message` (lines 122-140), with the decoded payload text passed in
(UTF-8 decoding with `errors="replace"` is total) and `json.loads` passed as
`loads` (`none` = decode exception, caught and silently ignored).  Mirrors the
source's short-circuit evaluation: `data.get("type")` is only evaluated after
the topic matched one of the three patterns, and raises on a non-dict. -/
def on_message (args : SimArgs) (r j : ℚ) (loads : String → Option Json)
    (topic text : String) : Except Unit (List Act) :=
  match loads (pyTextOr text) with
  | none => .ok []
  | some data =>
    if topic == t_control args.farm then
      match pyGet data "type" with
      | .error e => .error e
      | .ok t =>
        if jsonEqStr t "PIVOT_CMD" then handle_pivot_cmd args r j data
        else .ok []
    else if topic == t_device args.farm then
      match pyGet data "type" with
      | .error e => .error e
      | .ok t =>
        if jsonEqStr t "DEVICE_CMD" then handle_device_cmd args r j data
        else .ok []
    else
      match reMotorMatch args.farm topic with
      | some motor_id =>
        match pyGet data "type" with
        | .error e => .error e
        | .ok t =>
          if jsonEqStr t "MOTOR_CMD" then handle_motor_cmd args motor_id r j data
          else .ok []
      | none => .ok []

/-- The last-will payload (line 72): message Offline. -/
def offlinePayload : Json := Json.obj [("message", Json.str "Offline")]

/-- Method `connect` (lines 64-92), restricted to broker-visible protocol actions:
register the last will (retained, QoS 1, on the status topic), open the
session, start the network loop.  Client construction and TLS setup carry no
protocol message. -/
def connectTrace (f : String) : List Act :=
  [Act.willSet (t_status f) offlinePayload 1 true,
   Act.connect, Act.loopStart]

/-- Callback `_on_connect` (lines 94-111): on `rc == 0`, publish Online (retained,
QoS 1), then Running (non-retained, QoS 0), then subscribe to the three
command topics, in source order; on failure, nothing. -/
def on_connect (f : String) (rc : Nat) : List Act :=
  if rc == 0 then
    [Act.pub (t_status f) (Json.obj [("message", Json.str "Online")]) 1 true,
     Act.pub (t_dev_status f) (Json.obj [("message", Json.str "Running")]) 0 false,
     Act.sub (t_control f) 0,
     Act.sub (t_device f) 0,
     Act.sub (t_motor_ctrl f) 0]
  else []

/-- The graceful-shutdown path of `run_forever` (lines 201-214): stop the loop
and disconnect; no publish of any kind. -/
def shutdownTrace : List Act := [Act.loopStop, Act.disconnect]

/-- Which handler a routed command is dispatched to (`_on_message`'s three
branches); a motor dispatch carries the topic-extracted motor id. -/
inductive HKind where
  | pivot : HKind
  | device : HKind
  | motor (motor_id : String) : HKind

/-- Run the handler selected by `k` (lines 152-198 via the dispatch in
lines 131-140). -/
def dispatch (k : HKind) (args : SimArgs) (r j : ℚ) (d : Json) :
    Except Unit (List Act) :=
  match k with
  | .pivot => handle_pivot_cmd args r j d
  | .device => handle_device_cmd args r j d
  | .motor m => handle_motor_cmd args m r j d

/-- Field `key` is absent or a string (the payload shapes of §6 of the spec);
what `d.get(key, '').lower()` needs to not raise. -/
def strictStrField (l : List (String × Json)) (key : String) : Bool :=
  match List.lookup key l with
  | none => true
  | some (Json.str _) => true
  | some _ => false

/-- Field `key` is absent, a string, or falsy; what
`(d.get(key) or '').upper()` needs to not raise. -/
def looseStrField (l : List (String × Json)) (key : String) : Bool :=
  match List.lookup key l with
  | none => true
  | some (Json.str _) => true
  | some v => !v.truthy

/-- The payload is a JSON object whose fields consulted by handler `k` are
well-typed per the spec's payload shapes (§6), so that no `AttributeError`
can arise in the handler. -/
def fieldsOkFor (k : HKind) (d : Json) : Bool :=
  match d with
  | .obj l =>
    match k with
    | .pivot => strictStrField l "run"
    | .device => looseStrField l "action" && looseStrField l "serial"
    | .motor _ => looseStrField l "command"
  | _ => false

/-- Did the callback return normally (no propagated exception)? -/
def excOk (res : Except Unit (List Act)) : Bool :=
  match res with
  | .ok _ => true
  | .error _ => false

/-- The payloads of the `pub` actions of a trace, in order. -/
def pubPayloads (tr : List Act) : List Json :=
  tr.filterMap fun a =>
    match a with
    | .pub _ p _ _ => some p
    | _ => none

/-- The `corr` fields of the published payloads of a handler result
(`none` = payload without a `corr` field or not an object; an exception
publishes nothing). -/
def corrsOf (res : Except Unit (List Act)) : List (Option Json) :=
  match res with
  | .ok tr =>
    (pubPayloads tr).map fun p =>
      match p with
      | .obj fs => List.lookup "corr" fs
      | _ => none
  | .error _ => []

/-- The non-dropped handler shape: exactly the simulated sleep followed by
exactly one publish (QoS 0, non-retained), nothing else. -/
def respondedShape (args : SimArgs) (j : ℚ) (res : Except Unit (List Act)) : Bool :=
  match res with
  | .ok [Act.sleep dl, Act.pub _ _ 0 false] => dl == delayOf args j
  | _ => false

/-- Exactly the last-will payload `{"message":"Offline"}`. -/
def isOfflinePayload (p : Json) : Bool :=
  match p with
  | .obj [(k, v)] =>
    k == "message" &&
      (match v with
       | .str t => t == "Offline"
       | _ => false)
  | _ => false

/-- Is this a broker publish (of any payload)? -/
def isPub (a : Act) : Bool :=
  match a with
  | .pub _ _ _ _ => true
  | _ => false

/-- Does this action publish the Offline payload?  (`willSet` only registers
the will with the transport; it publishes nothing itself.) -/
def pubCarriesOffline (a : Act) : Bool :=
  match a with
  | .pub _ p _ _ => isOfflinePayload p
  | _ => false

/-- No publish in the result carries the Offline payload. -/
def resNoOffline (res : Except Unit (List Act)) : Bool :=
  match res with
  | .ok tr => tr.all fun a => !pubCarriesOffline a
  | .error _ => true

/-- Does any publish in the result carry `"ok": false` (an Err), or go to the
global err topic? -/
def resHasErr (f : String) (res : Except Unit (List Act)) : Bool :=
  match res with
  | .ok tr =>
    tr.any fun a =>
      match a with
      | .pub t p _ _ =>
        t == t_err f ||
          (match p with
           | .obj fs =>
             match List.lookup "ok" fs with
             | some (Json.bool false) => true
             | _ => false
           | _ => false)
      | _ => false
  | .error _ => false

/-- Models the external JSON library (`json.loads`) on the concrete payload
texts used in closed instances below; each equation is a fixed fact of the
JSON grammar (`loads "\x7b\x7d"` is the empty object, `loads "[]"` the empty
array, `loads "5"` the number 5, and `bad json` is not valid JSON). -/
def loadsDemo (s : String) : Option Json :=
  if s == "\x7b\x7d" then some (Json.obj [])
  else if s == "[]" then some (Json.arr [])
  else if s == "5" then some (Json.num 5)
  else if s == "\x7b\"type\":\"PIVOT_CMD\",\"corr\":\"w\",\"run\":\"START\"\x7d" then
    some (Json.obj [("type", Json.str "PIVOT_CMD"), ("corr", Json.str "w"),
                    ("run", Json.str "START")])
  else none

/-- A concrete configuration for closed instances: zero latency and jitter,
drop disabled, motor-failure disabled, farm id `"F1"`. -/
def demoArgs : SimArgs :=
  { latency := 0, random_lag := 0, drop_rate := 0, motor_fail := false, farm := "F1" }

/-- Configuration `demoArgs` with the motor-failure toggle enabled. -/
def demoArgsMF : SimArgs := { demoArgs with motor_fail := true }

/-- Configuration `demoArgs` with drop probability 1. -/
def demoArgsDrop : SimArgs := { demoArgs with drop_rate := 1 }


/-- The string value of `d.get(key, '')` when the field is absent or a
string. -/
def strictStr (l : List (String × Json)) (key : String) : String :=
  match List.lookup key l with
  | some (Json.str s) => s
  | _ => ""

/-- The string value of `d.get(key) or ''` when non-raising (field absent,
string, or falsy). -/
def looseStr (l : List (String × Json)) (key : String) : String :=
  match pyOr (jfield l key) (Json.str "") with
  | .str s => s
  | _ => ""

lemma pyOr_loose (l : List (String × Json)) (key : String)
    (h : looseStrField l key = true) :
    pyOr (jfield l key) (Json.str "") = Json.str (looseStr l key) := by
  unfold looseStrField at h
  unfold looseStr pyOr jfield
  cases hl : List.lookup key l with
  | none => simp [Json.truthy]
  | some v =>
    rw [hl] at h
    cases v with
    | str s => by_cases hs : s = "" <;> simp [Json.truthy, hs]
    | null => simp [Json.truthy]
    | bool b => cases b <;> simp_all [Json.truthy]
    | num n => simp_all [Json.truthy]
    | arr a => simp_all [Json.truthy]
    | obj o => simp_all [Json.truthy]

lemma getD_strict (l : List (String × Json)) (key : String)
    (h : strictStrField l key = true) :
    (List.lookup key l).getD (Json.str "") = Json.str (strictStr l key) := by
  unfold strictStrField at h
  unfold strictStr
  cases hl : List.lookup key l with
  | none => simp
  | some v =>
    rw [hl] at h
    cases v <;> simp_all

/-- Characterisation of `handle_pivot_cmd` on a well-typed payload: drop gate,
then sleep and a single Ack echoing `corr` (falsy → `""`) with the lowercased
run note. -/
lemma pivot_char (args : SimArgs) (r j : ℚ) (l : List (String × Json))
    (hwt : strictStrField l "run" = true) :
    handle_pivot_cmd args r j (Json.obj l) =
      if maybe_drop args r then .ok []
      else .ok [Act.sleep (delayOf args j),
                Act.pub (t_ack args.farm)
                  (Json.obj [("corr", pyOr (jfield l "corr") (Json.str "")),
                             ("ok", Json.bool true),
                             ("note", Json.str
                               ("pivot " ++ asciiLower (strictStr l "run") ++ " accepted"))])
                  0 false] := by
  simp only [handle_pivot_cmd, pyGet, pyGetD]
  rw [getD_strict l "run" hwt]
  by_cases hdrop : maybe_drop args r <;> simp [hdrop, pyLower]

/-- Characterisation of `handle_device_cmd` on a well-typed payload: drop
gate, then sleep and a single Err (empty uppercased action or
whitespace-stripped-empty serial) or Ack. -/
lemma device_char (args : SimArgs) (r j : ℚ) (l : List (String × Json))
    (hwa : looseStrField l "action" = true) (hws : looseStrField l "serial" = true) :
    handle_device_cmd args r j (Json.obj l) =
      if maybe_drop args r then .ok []
      else if asciiUpper (looseStr l "action") == "" || pyTrim (looseStr l "serial") == "" then
        .ok [Act.sleep (delayOf args j),
             Act.pub (t_err args.farm)
               (Json.obj [("corr", pyOr (jfield l "corr") (Json.str "")),
                          ("ok", Json.bool false),
                          ("reason", Json.str "missing action/serial")])
               0 false]
      else
        .ok [Act.sleep (delayOf args j),
             Act.pub (t_ack args.farm)
               (Json.obj [("corr", pyOr (jfield l "corr") (Json.str "")),
                          ("ok", Json.bool true),
                          ("note", Json.str (asciiUpper (looseStr l "action") ++ " ok"))])
               0 false] := by
  simp only [handle_device_cmd, pyGet]
  rw [pyOr_loose l "action" hwa, pyOr_loose l "serial" hws]
  by_cases hdrop : maybe_drop args r <;> simp [hdrop, pyUpper, pyStrip]

/-- Characterisation of `handle_motor_cmd` on a well-typed payload: drop gate,
then sleep and a single per-motor Err (`motor_fail` and uppercased command
`START_MOTOR`) or Ack. -/
lemma motor_char (args : SimArgs) (m : String) (r j : ℚ)
    (l : List (String × Json)) (hwc : looseStrField l "command" = true) :
    handle_motor_cmd args m r j (Json.obj l) =
      if maybe_drop args r then .ok []
      else if args.motor_fail && asciiUpper (looseStr l "command") == "START_MOTOR" then
        .ok [Act.sleep (delayOf args j),
             Act.pub ("farm/" ++ args.farm ++ "/motor/" ++ m ++ "/err")
               (Json.obj [("corr", pyOr (jfield l "corr") (Json.str "")),
                          ("ok", Json.bool false),
                          ("reason", Json.str "sim motor fault")])
               0 false]
      else
        .ok [Act.sleep (delayOf args j),
             Act.pub ("farm/" ++ args.farm ++ "/motor/" ++ m ++ "/ack")
               (Json.obj [("corr", pyOr (jfield l "corr") (Json.str "")),
                          ("ok", Json.bool true),
                          ("note", Json.str "sim motor ok")])
               0 false] := by
  simp only [handle_motor_cmd, pyGet]
  rw [pyOr_loose l "command" hwc]
  by_cases hdrop : maybe_drop args r <;>
    by_cases hmf : args.motor_fail && asciiUpper (looseStr l "command") == "START_MOTOR" <;>
      simp [hdrop, hmf, pyUpper]

/-- Topics shorter than `farm/<F>/motor/` plus a nonempty id plus `/control`
never match the motor-control pattern. -/
lemma reMotorMatch_none_of_short (f topic : String)
    (h : topic.length < ("farm/" ++ f ++ "/motor/").length + 9) :
    reMotorMatch f topic = none := by
  have hc : (decide (("farm/" ++ f ++ "/motor/").data.length
      + ("/control" : String).data.length < topic.data.length)) = false := by
    rw [decide_eq_false_iff_not]
    have h8 : ("/control" : String).data.length = 8 := by decide
    have e1 : ("farm/" ++ f ++ "/motor/").data.length
        = ("farm/" ++ f ++ "/motor/").length := rfl
    have e2 : topic.data.length = topic.length := rfl
    omega
  simp only [reMotorMatch, hc, Bool.and_false, Bool.false_eq_true, ite_false]

/-- On a well-formed motor-control topic the matcher extracts exactly the
path segment between `motor/` and `/control`. -/
lemma reMotorMatch_correct (f m : String) (hne : m.data ≠ [])
    (hns : m.data.contains '/' = false) :
    reMotorMatch f ("farm/" ++ f ++ "/motor/" ++ m ++ "/control") = some m := by
  have hdata : ("farm/" ++ f ++ "/motor/" ++ m ++ "/control").data
      = ("farm/" ++ f ++ "/motor/").data
          ++ (m.data ++ ("/control" : String).data) := by
    simp [String.data_append, List.append_assoc]
  have hpre : (("farm/" ++ f ++ "/motor/").data.isPrefixOf
      (("farm/" ++ f ++ "/motor/").data
        ++ (m.data ++ ("/control" : String).data))) = true := by
    rw [List.isPrefixOf_iff_prefix]
    exact List.prefix_append _ _
  have hsuf : (("/control" : String).data.isSuffixOf
      (("farm/" ++ f ++ "/motor/").data
        ++ (m.data ++ ("/control" : String).data))) = true := by
    rw [List.isSuffixOf_iff_suffix, ← List.append_assoc]
    exact List.suffix_append _ _
  have hmlen : 0 < m.data.length := List.length_pos.mpr hne
  have hlen : (decide (("farm/" ++ f ++ "/motor/").data.length
      + ("/control" : String).data.length
      < (("farm/" ++ f ++ "/motor/").data
          ++ (m.data ++ ("/control" : String).data)).length)) = true := by
    rw [decide_eq_true_iff]
    simp only [List.length_append]
    omega
  have hmid : (("farm/" ++ f ++ "/motor/").data
        ++ (m.data ++ ("/control" : String).data)).length
      - ("farm/" ++ f ++ "/motor/").data.length
      - ("/control" : String).data.length = m.data.length := by
    simp only [List.length_append]
    omega
  simp only [reMotorMatch, hdata, hpre, hsuf, hlen, Bool.and_true, Bool.true_and,
    ite_true, hmid, List.drop_left, List.take_left, hns, Bool.false_eq_true,
    ite_false]

/-- The global control topic does not match the motor-control pattern. -/
lemma reMotorMatch_tcontrol (f : String) :
    reMotorMatch f (t_control f) = none := by
  apply reMotorMatch_none_of_short
  unfold t_control
  rw [String.length_append, String.length_append,
      String.length_append, String.length_append]
  have h1 : ("farm/" : String).length = 5 := by decide
  have h2 : ("/control" : String).length = 8 := by decide
  have h3 : ("/motor/" : String).length = 7 := by decide
  omega

/-- The global device topic does not match the motor-control pattern. -/
lemma reMotorMatch_tdevice (f : String) :
    reMotorMatch f (t_device f) = none := by
  apply reMotorMatch_none_of_short
  unfold t_device
  rw [String.length_append, String.length_append,
      String.length_append, String.length_append]
  have h1 : ("farm/" : String).length = 5 := by decide
  have h2 : ("/device" : String).length = 7 := by decide
  have h3 : ("/motor/" : String).length = 7 := by decide
  omega

lemma append_left_ne (a x y : String) (h : x.data ≠ y.data) : a ++ x ≠ a ++ y := by
  intro he
  apply h
  have hd := congrArg String.data he
  rw [String.data_append, String.data_append] at hd
  exact List.append_cancel_left hd

lemma t_ack_ne_t_err (f : String) : t_ack f ≠ t_err f := by
  unfold t_ack t_err
  rw [String.append_assoc, String.append_assoc]
  apply append_left_ne
  intro hd
  rw [String.data_append, String.data_append] at hd
  have hc := List.append_cancel_left hd
  exact absurd hc (by decide)

lemma maybe_drop_one (args : SimArgs) (r : ℚ)
    (h1 : args.drop_rate = 1) (hr : r < 1) : maybe_drop args r = true := by
  unfold maybe_drop
  rw [h1]
  norm_num
  exact hr

/-- C1: for every inbound command dispatched to a handler, the drop decision
(`random.random() < clamp(dropRate,0,1)`) is evaluated before any wait: a
dropped command returns with no sleep and no publish, a non-dropped command
sleeps the simulated delay and then publishes exactly one outbound message
(QoS 0, non-retained); with `drop_rate = 1` every draw in `[0,1)` drops, so
no outbound publish ever results. -/
theorem drop_gate_exactly_one_response (k : HKind) (args : SimArgs) (r j : ℚ)
    (d : Json) (hwt : fieldsOkFor k d = true) :
    (maybe_drop args r = true → dispatch k args r j d = .ok [])
    ∧ (maybe_drop args r = false →
        respondedShape args j (dispatch k args r j d) = true)
    ∧ (args.drop_rate = 1 → 0 ≤ r → r < 1 → dispatch k args r j d = .ok []) := by
  have main : (maybe_drop args r = true → dispatch k args r j d = .ok [])
      ∧ (maybe_drop args r = false →
          respondedShape args j (dispatch k args r j d) = true) := by
    cases d with
    | obj l =>
      cases k with
      | pivot =>
        simp only [fieldsOkFor] at hwt
        constructor <;> intro hdrop <;>
          simp [dispatch, pivot_char args r j l hwt, hdrop, respondedShape]
      | device =>
        simp only [fieldsOkFor, Bool.and_eq_true] at hwt
        constructor <;> intro hdrop <;>
          simp only [dispatch, device_char args r j l hwt.1 hwt.2, hdrop,
            if_true, if_false, Bool.false_eq_true, ite_true, ite_false] <;>
          first
            | rfl
            | (split <;> simp [respondedShape])
      | motor m =>
        simp only [fieldsOkFor] at hwt
        constructor <;> intro hdrop <;>
          simp only [dispatch, motor_char args m r j l hwt, hdrop,
            if_true, if_false, Bool.false_eq_true, ite_true, ite_false] <;>
          first
            | rfl
            | (split <;> simp [respondedShape])
    | null => simp [fieldsOkFor] at hwt
    | bool b => simp [fieldsOkFor] at hwt
    | num n => simp [fieldsOkFor] at hwt
    | str s => simp [fieldsOkFor] at hwt
    | arr a => simp [fieldsOkFor] at hwt
  exact ⟨main.1, main.2, fun h1 _ hr => main.1 (maybe_drop_one args r h1 hr)⟩

/-- Witness for C1: a concrete non-dropped pivot command yields exactly the
sleep followed by one publish. -/
theorem drop_gate_exactly_one_response_witness :
    respondedShape demoArgs 0
      (dispatch HKind.pivot demoArgs 0 0
        (Json.obj [("corr", Json.str "x"), ("run", Json.str "START")])) = true :=
  (drop_gate_exactly_one_response HKind.pivot demoArgs 0 0
    (Json.obj [("corr", Json.str "x"), ("run", Json.str "START")])
    (by decide)).2.1 (by decide)

/-- C7: on a successful connection (result code 0) the device publishes
Online retained at QoS 1 to the status topic, then Running non-retained at
QoS 0 to the device-status topic, then activates the three subscriptions
(global control, global device, wildcard per-motor control), in that strict
order. -/
theorem connect_presence_order (f : String) :
    on_connect f 0 =
      [Act.pub (t_status f) (Json.obj [("message", Json.str "Online")]) 1 true,
       Act.pub (t_dev_status f) (Json.obj [("message", Json.str "Running")]) 0 false,
       Act.sub (t_control f) 0,
       Act.sub (t_device f) 0,
       Act.sub (t_motor_ctrl f) 0] := rfl

/-- C10: an empty inbound payload is replaced by the text of the empty JSON
object (`text or "\x7b\x7d"`), parses, and is then discarded for lacking a
`type` discriminator: for every topic it produces no outbound message and no
error. -/
theorem empty_payload_silent (args : SimArgs) (r j : ℚ)
    (loads : String → Option Json) (topic : String)
    (hl : loads "\x7b\x7d" = some (Json.obj [])) :
    on_message args r j loads topic "" = .ok [] := by
  unfold on_message
  have ht : pyTextOr "" = "\x7b\x7d" := rfl
  rw [ht, hl]
  by_cases h1 : topic = t_control args.farm
  · simp [h1, pyGet, jfield, jsonEqStr]
  · by_cases h2 : topic = t_device args.farm
    · simp [h1, h2, pyGet, jfield, jsonEqStr]
    · simp only [beq_iff_eq, h1, h2, if_false, ite_false]
      cases hm : reMotorMatch args.farm topic <;> simp [pyGet, jfield, jsonEqStr]

/-- Witness for C10: the empty payload on the control topic is silently
discarded. -/
theorem empty_payload_silent_witness :
    on_message demoArgs 0 0 loadsDemo "farm/F1/control" "" = .ok [] :=
  empty_payload_silent demoArgs 0 0 loadsDemo "farm/F1/control" rfl

/-- The pivot handler never produces an Err (no publish to the global err
topic, no payload with `ok == false`), whatever the input. -/
lemma pivot_never_err (args : SimArgs) (r j : ℚ) (d : Json) :
    resHasErr args.farm (handle_pivot_cmd args r j d) = false := by
  have hne : (t_ack args.farm == t_err args.farm) = false :=
    beq_eq_false_iff_ne.mpr (t_ack_ne_t_err args.farm)
  cases d with
  | obj l =>
    simp only [handle_pivot_cmd, pyGet, pyGetD]
    by_cases hdrop : maybe_drop args r
    · simp [hdrop, resHasErr]
    · simp only [hdrop, Bool.false_eq_true, ite_false]
      cases hv : (List.lookup "run" l).getD (Json.str "") <;>
        simp [pyLower, resHasErr, hne, List.lookup]
  | null => rfl
  | bool b => rfl
  | num n => rfl
  | str s => rfl
  | arr a => rfl

/-- C6: a non-dropped pivot command yields exactly one Ack on the global ack
topic, `ok == true`, note `"pivot <run, lowercased> accepted"`, echoing
`corr`; and the pivot handler never publishes an Err for any input. -/
theorem pivot_single_ack_never_err (args : SimArgs) (r j : ℚ)
    (l : List (String × Json)) (s : String)
    (hrun : List.lookup "run" l = some (Json.str s))
    (hdrop : maybe_drop args r = false) :
    handle_pivot_cmd args r j (Json.obj l) =
      .ok [Act.sleep (delayOf args j),
           Act.pub (t_ack args.farm)
             (Json.obj [("corr", pyOr (jfield l "corr") (Json.str "")),
                        ("ok", Json.bool true),
                        ("note", Json.str ("pivot " ++ asciiLower s ++ " accepted"))])
             0 false]
    ∧ ∀ (e : Json) (r2 j2 : ℚ),
        resHasErr args.farm (handle_pivot_cmd args r2 j2 e) = false := by
  have hwt : strictStrField l "run" = true := by
    unfold strictStrField
    rw [hrun]
  have hs : strictStr l "run" = s := by
    unfold strictStr
    rw [hrun]
  constructor
  · rw [pivot_char args r j l hwt, hs]
    simp [hdrop]
  · exact fun e r2 j2 => pivot_never_err args r2 j2 e

/-- Witness for C6: the spec's example — `corr="abc123"`, `run="START"`,
drop disabled — produces the single Ack with note `"pivot start accepted"`. -/
theorem pivot_single_ack_never_err_witness :
    handle_pivot_cmd demoArgs 0 0
        (Json.obj [("corr", Json.str "abc123"), ("run", Json.str "START")]) =
      .ok [Act.sleep (delayOf demoArgs 0),
           Act.pub (t_ack demoArgs.farm)
             (Json.obj [("corr", Json.str "abc123"),
                        ("ok", Json.bool true),
                        ("note", Json.str "pivot start accepted")])
             0 false] := by
  rw [(pivot_single_ack_never_err demoArgs 0 0
    [("corr", Json.str "abc123"), ("run", Json.str "START")] "START"
    rfl (by decide)).1]
  rfl

/-- Every non-dropped, well-typed command produces exactly one publish, whose
payload's `corr` field is `corr or ""` of the inbound payload. -/
lemma corr_field_echo (k : HKind) (args : SimArgs) (r j : ℚ)
    (l : List (String × Json)) (hwt : fieldsOkFor k (Json.obj l) = true)
    (hdrop : maybe_drop args r = false) :
    corrsOf (dispatch k args r j (Json.obj l)) =
      [some (pyOr (jfield l "corr") (Json.str ""))] := by
  cases k with
  | pivot =>
    simp only [fieldsOkFor] at hwt
    simp only [dispatch]
    rw [pivot_char args r j l hwt]
    simp [hdrop, corrsOf, pubPayloads]
  | device =>
    simp only [fieldsOkFor, Bool.and_eq_true] at hwt
    simp only [dispatch]
    rw [device_char args r j l hwt.1 hwt.2]
    simp only [hdrop, Bool.false_eq_true, ite_false]
    split <;> simp [corrsOf, pubPayloads]
  | motor m =>
    simp only [fieldsOkFor] at hwt
    simp only [dispatch]
    rw [motor_char args m r j l hwt]
    simp only [hdrop, Bool.false_eq_true, ite_false]
    split <;> simp [corrsOf, pubPayloads]

/-- C2 counterexample: an inbound pivot command whose `corr` field is the
(falsy, non-string) JSON value `false` is answered with `corr == ""` — the
outbound `corr` is not byte-identical to the inbound one. -/
theorem corr_echo_counterexample :
    corrsOf (handle_pivot_cmd demoArgs 0 0
        (Json.obj [("corr", Json.bool false), ("run", Json.str "START")]))
      = [some (Json.str "")]
    ∧ Json.str "" ≠ Json.bool false :=
  ⟨rfl, fun h => Json.noConfusion h⟩

/-- C2 amended: the outbound `corr` is byte-identical to the inbound `corr`
for every *string-valued* inbound `corr` (including the empty string), in all
three handlers; an absent `corr` is answered with the empty string. -/
theorem corr_echo_strings (k : HKind) (args : SimArgs) (r j : ℚ)
    (l : List (String × Json)) (hwt : fieldsOkFor k (Json.obj l) = true)
    (hdrop : maybe_drop args r = false) :
    (∀ s : String, List.lookup "corr" l = some (Json.str s) →
      corrsOf (dispatch k args r j (Json.obj l)) = [some (Json.str s)])
    ∧ (List.lookup "corr" l = none →
      corrsOf (dispatch k args r j (Json.obj l)) = [some (Json.str "")]) := by
  have he := corr_field_echo k args r j l hwt hdrop
  constructor
  · intro s hs
    rw [he]
    unfold pyOr jfield
    rw [hs]
    by_cases hempty : s = "" <;> simp [Json.truthy, hempty]
  · intro hn
    rw [he]
    unfold pyOr jfield
    rw [hn]
    simp [Json.truthy]

/-- Witness for C2 (amended): a concrete motor command with string `corr`
`"c-17"` is echoed byte-identically. -/
theorem corr_echo_strings_witness :
    corrsOf (dispatch (HKind.motor "M7") demoArgs 0 0
        (Json.obj [("corr", Json.str "c-17"), ("command", Json.str "STOP")]))
      = [some (Json.str "c-17")] :=
  (corr_echo_strings (HKind.motor "M7") demoArgs 0 0
    [("corr", Json.str "c-17"), ("command", Json.str "STOP")]
    (by decide) (by decide)).1 "c-17" rfl

/-- C9 counterexample: an inbound `corr` holding the (truthy, non-string)
JSON number `5` is echoed verbatim, so the outbound Ack carries a `corr`
field that is not of string type. -/
theorem corr_string_type_counterexample :
    corrsOf (handle_pivot_cmd demoArgs 0 0
        (Json.obj [("corr", Json.num 5), ("run", Json.str "x")]))
      = [some (Json.num 5)]
    ∧ Json.isStr (Json.num 5) = false :=
  ⟨rfl, rfl⟩

/-- C9 amended: a falsy or absent inbound `corr` (absent, null, `false`, `0`,
`""`, …) is answered with `corr == ""`; consequently the outbound `corr`
field is present in every response and is of string type whenever the
inbound `corr` is a string or absent (a truthy non-string `corr` is echoed
verbatim, with its own type). -/
theorem corr_falsy_normalised (k : HKind) (args : SimArgs) (r j : ℚ)
    (l : List (String × Json)) (hwt : fieldsOkFor k (Json.obj l) = true)
    (hdrop : maybe_drop args r = false) :
    (Json.truthy (jfield l "corr") = false →
      corrsOf (dispatch k args r j (Json.obj l)) = [some (Json.str "")])
    ∧ (((List.lookup "corr" l).getD (Json.str "")).isStr = true →
      (corrsOf (dispatch k args r j (Json.obj l))).all
        (fun o => (o.getD Json.null).isStr) = true) := by
  have he := corr_field_echo k args r j l hwt hdrop
  constructor
  · intro hf
    rw [he]
    unfold pyOr
    rw [hf]
    simp
  · intro hstr
    rw [he]
    unfold pyOr jfield
    cases hl : List.lookup "corr" l with
    | none => simp [Json.truthy, Json.isStr]
    | some v =>
      rw [hl] at hstr
      simp only [Option.getD] at hstr ⊢
      cases v with
      | str s2 => by_cases h2 : s2 = "" <;> simp [h2, Json.truthy, Json.isStr]
      | null => simp [Json.truthy, Json.isStr]
      | bool b => simp_all [Json.isStr]
      | num n => simp_all [Json.isStr]
      | arr a => simp_all [Json.isStr]
      | obj o => simp_all [Json.isStr]

/-- Witness for C9 (amended): a null `corr` is answered with the empty
string. -/
theorem corr_falsy_normalised_witness :
    corrsOf (dispatch HKind.device demoArgs 0 0
        (Json.obj [("corr", Json.null), ("action", Json.str "reboot"),
                   ("serial", Json.str "SN1")]))
      = [some (Json.str "")] :=
  (corr_falsy_normalised HKind.device demoArgs 0 0
    [("corr", Json.null), ("action", Json.str "reboot"), ("serial", Json.str "SN1")]
    (by decide) (by decide)).1 rfl

/-- C3 counterexample: with motor-failure enabled, the inbound command
`"start_motor"` — which does not equal `"START_MOTOR"` — still produces the
Err `"sim motor fault"` (the code uppercases the command before comparing),
contradicting the claimed "only if ... `command == \"START_MOTOR\"`". -/
theorem motor_fault_case_counterexample :
    handle_motor_cmd demoArgsMF "M7" 0 0
        (Json.obj [("corr", Json.str "c"), ("command", Json.str "start_motor")]) =
      .ok [Act.sleep (delayOf demoArgsMF 0),
           Act.pub "farm/F1/motor/M7/err"
             (Json.obj [("corr", Json.str "c"), ("ok", Json.bool false),
                        ("reason", Json.str "sim motor fault")]) 0 false]
    ∧ ("start_motor" : String) ≠ "START_MOTOR" :=
  ⟨rfl, by decide⟩

/-- C3 amended: a non-dropped motor command yields the per-motor Err
`"sim motor fault"` iff the motor-failure toggle is enabled and the
*uppercased* inbound command equals `"START_MOTOR"`; otherwise the per-motor
Ack `"sim motor ok"`; and on a well-formed motor-control topic the router
extracts exactly the path-segment motor id used in the outbound topics. -/
theorem motor_fault_iff_uppercased (args : SimArgs) (m : String) (r j : ℚ)
    (l : List (String × Json)) (hwt : looseStrField l "command" = true)
    (hdrop : maybe_drop args r = false) :
    (handle_motor_cmd args m r j (Json.obj l) =
      if args.motor_fail && (asciiUpper (looseStr l "command") == "START_MOTOR") then
        .ok [Act.sleep (delayOf args j),
             Act.pub ("farm/" ++ args.farm ++ "/motor/" ++ m ++ "/err")
               (Json.obj [("corr", pyOr (jfield l "corr") (Json.str "")),
                          ("ok", Json.bool false),
                          ("reason", Json.str "sim motor fault")]) 0 false]
      else
        .ok [Act.sleep (delayOf args j),
             Act.pub ("farm/" ++ args.farm ++ "/motor/" ++ m ++ "/ack")
               (Json.obj [("corr", pyOr (jfield l "corr") (Json.str "")),
                          ("ok", Json.bool true),
                          ("note", Json.str "sim motor ok")]) 0 false])
    ∧ (m.data ≠ [] → m.data.contains '/' = false →
        reMotorMatch args.farm
          ("farm/" ++ args.farm ++ "/motor/" ++ m ++ "/control") = some m) := by
  constructor
  · rw [motor_char args m r j l hwt]
    simp [hdrop]
  · exact fun h1 h2 => reMotorMatch_correct args.farm m h1 h2

/-- Witness for C3 (amended): with motor-failure enabled and command
`"START_MOTOR"` on motor `"M7"`, the per-motor err topic receives
`"sim motor fault"`. -/
theorem motor_fault_iff_uppercased_witness :
    handle_motor_cmd demoArgsMF "M7" 0 0
        (Json.obj [("corr", Json.str "k"), ("command", Json.str "START_MOTOR")]) =
      .ok [Act.sleep (delayOf demoArgsMF 0),
           Act.pub "farm/F1/motor/M7/err"
             (Json.obj [("corr", Json.str "k"), ("ok", Json.bool false),
                        ("reason", Json.str "sim motor fault")]) 0 false] := by
  rw [(motor_fault_iff_uppercased demoArgsMF "M7" 0 0
    [("corr", Json.str "k"), ("command", Json.str "START_MOTOR")]
    (by decide) (by decide)).1]
  rfl

/-- C4 counterexample: a device command whose `serial` is `" "` — neither
empty nor absent — is still answered with the Err `"missing action/serial"`
(the code strips whitespace before testing), and no Ack, contradicting the
claimed "otherwise ... Ack". -/
theorem device_missing_fields_counterexample :
    handle_device_cmd demoArgs 0 0
        (Json.obj [("corr", Json.str "c"), ("action", Json.str "A"),
                   ("serial", Json.str " ")]) =
      .ok [Act.sleep (delayOf demoArgs 0),
           Act.pub (t_err "F1")
             (Json.obj [("corr", Json.str "c"), ("ok", Json.bool false),
                        ("reason", Json.str "missing action/serial")]) 0 false]
    ∧ (" " : String) ≠ "" :=
  ⟨rfl, by decide⟩

/-- C4 amended: a non-dropped device command is answered with exactly one
Err `"missing action/serial"` on the global err topic when the uppercased
`action` is empty (action empty, absent, or falsy) or the
whitespace-stripped `serial` is empty (serial empty, absent, falsy, or
whitespace-only); otherwise with exactly one Ack
`"<ACTION, uppercased> ok"` on the global ack topic. -/
theorem device_err_iff_stripped_empty (args : SimArgs) (r j : ℚ)
    (l : List (String × Json))
    (hwa : looseStrField l "action" = true) (hws : looseStrField l "serial" = true)
    (hdrop : maybe_drop args r = false) :
    handle_device_cmd args r j (Json.obj l) =
      if asciiUpper (looseStr l "action") == "" || pyTrim (looseStr l "serial") == "" then
        .ok [Act.sleep (delayOf args j),
             Act.pub (t_err args.farm)
               (Json.obj [("corr", pyOr (jfield l "corr") (Json.str "")),
                          ("ok", Json.bool false),
                          ("reason", Json.str "missing action/serial")]) 0 false]
      else
        .ok [Act.sleep (delayOf args j),
             Act.pub (t_ack args.farm)
               (Json.obj [("corr", pyOr (jfield l "corr") (Json.str "")),
                          ("ok", Json.bool true),
                          ("note", Json.str (asciiUpper (looseStr l "action") ++ " ok"))])
               0 false] := by
  rw [device_char args r j l hwa hws]
  simp [hdrop]

/-- Witness for C4 (amended): `action="reboot"`, `serial="SN-9"` yields the
single Ack `"REBOOT ok"`. -/
theorem device_err_iff_stripped_empty_witness :
    handle_device_cmd demoArgs 0 0
        (Json.obj [("corr", Json.str "c2"), ("action", Json.str "reboot"),
                   ("serial", Json.str "SN-9")]) =
      .ok [Act.sleep (delayOf demoArgs 0),
           Act.pub (t_ack "F1")
             (Json.obj [("corr", Json.str "c2"), ("ok", Json.bool true),
                        ("note", Json.str "REBOOT ok")]) 0 false] := by
  rw [device_err_iff_stripped_empty demoArgs 0 0
    [("corr", Json.str "c2"), ("action", Json.str "reboot"),
     ("serial", Json.str "SN-9")] (by decide) (by decide) (by decide)]
  rfl

lemma t_control_ne_t_device (f : String) : t_control f ≠ t_device f := by
  unfold t_control t_device
  rw [String.append_assoc, String.append_assoc]
  apply append_left_ne
  intro hd
  rw [String.data_append, String.data_append] at hd
  have hc := List.append_cancel_left hd
  exact absurd hc (by decide)


lemma pivot_ok (args : SimArgs) (r j : ℚ) (l : List (String × Json))
    (hwt : strictStrField l "run" = true) :
    excOk (handle_pivot_cmd args r j (Json.obj l)) = true := by
  rw [pivot_char args r j l hwt]
  split <;> rfl

lemma device_ok (args : SimArgs) (r j : ℚ) (l : List (String × Json))
    (hwa : looseStrField l "action" = true) (hws : looseStrField l "serial" = true) :
    excOk (handle_device_cmd args r j (Json.obj l)) = true := by
  rw [device_char args r j l hwa hws]
  split
  · rfl
  · split <;> rfl

lemma motor_ok (args : SimArgs) (m : String) (r j : ℚ) (l : List (String × Json))
    (hwc : looseStrField l "command" = true) :
    excOk (handle_motor_cmd args m r j (Json.obj l)) = true := by
  rw [motor_char args m r j l hwc]
  split
  · rfl
  · split <;> rfl

/-- Evaluation of `_on_message` once the payload has parsed to an object:
the source's if/elif/else over (topic, type). -/
lemma on_message_eval (args : SimArgs) (r j : ℚ) (loads : String → Option Json)
    (topic text : String) (l : List (String × Json))
    (hl : loads (pyTextOr text) = some (Json.obj l)) :
    on_message args r j loads topic text =
      if topic = t_control args.farm then
        (if jsonEqStr (jfield l "type") "PIVOT_CMD" then
          handle_pivot_cmd args r j (Json.obj l) else .ok [])
      else if topic = t_device args.farm then
        (if jsonEqStr (jfield l "type") "DEVICE_CMD" then
          handle_device_cmd args r j (Json.obj l) else .ok [])
      else
        match reMotorMatch args.farm topic with
        | some m =>
          (if jsonEqStr (jfield l "type") "MOTOR_CMD" then
            handle_motor_cmd args m r j (Json.obj l) else .ok [])
        | none => .ok [] := by
  simp only [on_message, hl, pyGet]
  by_cases h1 : topic = t_control args.farm <;>
    by_cases h2 : topic = t_device args.farm <;>
      simp [h1, h2]

/-- C5 counterexample: the message callback is not total over all payloads:
the payload `"[]"` — valid JSON, but not an object — on the control topic
makes `data.get("type")` raise an `AttributeError` that propagates out of the
callback. -/
theorem on_message_total_counterexample :
    on_message demoArgs 0 0 loadsDemo (t_control "F1") "[]" = .error () := rfl

/-- C5 amended: a payload that fails to parse is silently discarded, as is a
parsed object whose (topic, `type`) pair matches none of the three command
categories; a matching pair is dispatched to exactly the corresponding
handler (the three cases are mutually exclusive).  The callback returns
without raising provided the fields consulted on the taken path are
well-typed: on the control path `run` must be absent or a string (a present
non-string `run`, even a falsy one, raises); on the device path `action` and
`serial` must each be absent, a string, or falsy; on the motor path
`command` must be absent, a string, or falsy.  Totality over *all* payloads
fails (see the counterexample). -/
theorem routing_dispatch (args : SimArgs) (r j : ℚ)
    (loads : String → Option Json) (topic text : String) :
    (loads (pyTextOr text) = none → on_message args r j loads topic text = .ok [])
    ∧ (∀ l : List (String × Json), loads (pyTextOr text) = some (Json.obj l) →
        (topic = t_control args.farm → jsonEqStr (jfield l "type") "PIVOT_CMD" = true →
            on_message args r j loads topic text = handle_pivot_cmd args r j (Json.obj l))
        ∧ (topic = t_control args.farm → strictStrField l "run" = true →
            excOk (on_message args r j loads topic text) = true)
        ∧ (topic = t_device args.farm → jsonEqStr (jfield l "type") "DEVICE_CMD" = true →
            on_message args r j loads topic text = handle_device_cmd args r j (Json.obj l))
        ∧ (topic = t_device args.farm → looseStrField l "action" = true →
            looseStrField l "serial" = true →
            excOk (on_message args r j loads topic text) = true)
        ∧ (∀ m, reMotorMatch args.farm topic = some m →
            jsonEqStr (jfield l "type") "MOTOR_CMD" = true →
            on_message args r j loads topic text = handle_motor_cmd args m r j (Json.obj l))
        ∧ (∀ m, reMotorMatch args.farm topic = some m →
            looseStrField l "command" = true →
            excOk (on_message args r j loads topic text) = true)
        ∧ (topic = t_control args.farm → jsonEqStr (jfield l "type") "PIVOT_CMD" = false →
            on_message args r j loads topic text = .ok [])
        ∧ (topic = t_device args.farm → jsonEqStr (jfield l "type") "DEVICE_CMD" = false →
            on_message args r j loads topic text = .ok [])
        ∧ (topic ≠ t_control args.farm → topic ≠ t_device args.farm →
            reMotorMatch args.farm topic = none →
            on_message args r j loads topic text = .ok [])
        ∧ (∀ m, reMotorMatch args.farm topic = some m →
            jsonEqStr (jfield l "type") "MOTOR_CMD" = false →
            on_message args r j loads topic text = .ok [])) := by
  constructor
  · intro hn
    simp [on_message, hn]
  · intro l hl
    have hev := on_message_eval args r j loads topic text l hl
    have hne : t_device args.farm ≠ t_control args.farm :=
      (t_control_ne_t_device args.farm).symm
    have hmc : ∀ m, reMotorMatch args.farm topic = some m →
        topic ≠ t_control args.farm ∧ topic ≠ t_device args.farm := by
      intro m hm
      constructor
      · intro he
        rw [he, reMotorMatch_tcontrol] at hm
        cases hm
      · intro he
        rw [he, reMotorMatch_tdevice] at hm
        cases hm
    refine ⟨?_, ?_, ?_, ?_, ?_, ?_, ?_, ?_, ?_, ?_⟩
    · intro h1 ht
      subst h1
      rw [hev, if_pos rfl, if_pos ht]
    · intro h1 hrun
      subst h1
      rw [hev, if_pos rfl]
      split
      · exact pivot_ok args r j l hrun
      · rfl
    · intro h2 ht
      subst h2
      rw [hev, if_neg hne, if_pos rfl, if_pos ht]
    · intro h2 hact hser
      subst h2
      rw [hev, if_neg hne, if_pos rfl]
      split
      · exact device_ok args r j l hact hser
      · rfl
    · intro m hm ht
      obtain ⟨h1, h2⟩ := hmc m hm
      rw [hev, if_neg h1, if_neg h2, hm]
      simp [ht]
    · intro m hm hcmd
      obtain ⟨h1, h2⟩ := hmc m hm
      rw [hev, if_neg h1, if_neg h2, hm]
      split
      · split
        · exact motor_ok args _ r j l hcmd
        · rfl
      · rename_i heq
        exact Option.noConfusion heq
    · intro h1 ht
      subst h1
      rw [hev, if_pos rfl]
      simp [ht]
    · intro h2 ht
      subst h2
      rw [hev, if_neg hne, if_pos rfl]
      simp [ht]
    · intro h1 h2 hm
      rw [hev, if_neg h1, if_neg h2, hm]
    · intro m hm ht
      obtain ⟨h1, h2⟩ := hmc m hm
      rw [hev, if_neg h1, if_neg h2, hm]
      simp [ht]

/-- Witness for C5 (amended): a concrete pivot command payload on the
control topic is dispatched to the pivot handler. -/
theorem routing_dispatch_witness :
    on_message demoArgs 0 0 loadsDemo "farm/F1/control"
        "\x7b\"type\":\"PIVOT_CMD\",\"corr\":\"w\",\"run\":\"START\"\x7d" =
      handle_pivot_cmd demoArgs 0 0
        (Json.obj [("type", Json.str "PIVOT_CMD"), ("corr", Json.str "w"),
                   ("run", Json.str "START")]) :=
  (((routing_dispatch demoArgs 0 0 loadsDemo "farm/F1/control"
      "\x7b\"type\":\"PIVOT_CMD\",\"corr\":\"w\",\"run\":\"START\"\x7d").2
    [("type", Json.str "PIVOT_CMD"), ("corr", Json.str "w"),
     ("run", Json.str "START")] rfl).1) rfl rfl

/-- No handler, on any input, ever publishes the Offline payload. -/
lemma dispatch_no_offline (k : HKind) (args : SimArgs) (r j : ℚ) (d : Json) :
    resNoOffline (dispatch k args r j d) = true := by
  cases k with
  | pivot =>
    cases d with
    | obj l =>
      simp only [dispatch, handle_pivot_cmd, pyGet, pyGetD]
      by_cases hdrop : maybe_drop args r
      · simp [hdrop, resNoOffline]
      · simp only [hdrop, Bool.false_eq_true, ite_false]
        cases hv : (List.lookup "run" l).getD (Json.str "") <;>
          simp [pyLower, resNoOffline, pubCarriesOffline, isOfflinePayload]
    | null => rfl
    | bool b => rfl
    | num n => rfl
    | str s => rfl
    | arr a => rfl
  | device =>
    cases d with
    | obj l =>
      simp only [dispatch, handle_device_cmd, pyGet]
      cases ha : pyOr (jfield l "action") (Json.str "") <;>
        cases hs : pyOr (jfield l "serial") (Json.str "") <;>
          simp only [pyUpper, pyStrip] <;> try rfl
      all_goals by_cases hdrop : maybe_drop args r
      all_goals simp only [hdrop, Bool.false_eq_true, ite_true, ite_false]
      all_goals try rfl
      all_goals split
      all_goals rfl
    | null => rfl
    | bool b => rfl
    | num n => rfl
    | str s => rfl
    | arr a => rfl
  | motor m =>
    cases d with
    | obj l =>
      simp only [dispatch, handle_motor_cmd, pyGet]
      cases hc : pyOr (jfield l "command") (Json.str "") <;>
        simp only [pyUpper] <;> try rfl
      all_goals by_cases hdrop : maybe_drop args r
      all_goals simp only [hdrop, Bool.false_eq_true, ite_true, ite_false]
      all_goals try rfl
      all_goals split
      all_goals rfl
    | null => rfl
    | bool b => rfl
    | num n => rfl
    | str s => rfl
    | arr a => rfl

/-- C8: the Offline payload occurs only in the last-will registration, made
(retained, QoS 1, on the status topic) before the session is opened; the
connection callback and every handler publish no Offline on any path, and
the graceful-shutdown path performs no publish at all. -/
theorem offline_only_last_will (args : SimArgs) (k : HKind) (r j : ℚ) :
    connectTrace args.farm =
      [Act.willSet (t_status args.farm) offlinePayload 1 true,
       Act.connect, Act.loopStart]
    ∧ (∀ rc : Nat,
        (on_connect args.farm rc).all (fun a => !pubCarriesOffline a) = true)
    ∧ (∀ d : Json, resNoOffline (dispatch k args r j d) = true)
    ∧ shutdownTrace.all (fun a => !isPub a) = true := by
  refine ⟨rfl, ?_, ?_, rfl⟩
  · intro rc
    cases rc with
    | zero => rfl
    | succ n => rfl
  · exact fun d => dispatch_no_offline k args r j d
